import Mathlib

/-!
Shallow embedding of `media-organizer/frontend/src-tauri/src/lib.rs` (the
`run` function of the Tauri application shell) and proofs of the spec's
claims about it.

The source is a startup procedure:

  tauri::Builder::default()
      .plugin(tauri_plugin_shell::init())
      .setup(|app| {
          if cfg!(debug_assertions) {
              app.handle().plugin(
                  tauri_plugin_log::Builder::default()
                      .level(log::LevelFilter::Info).build())?;
          }
          #[cfg(not(debug_assertions))]
          {
              let sidecar = app.shell().sidecar("media-organizer-backend")
                  .expect("Failed to create sidecar command");
              let (mut _rx, _child) = sidecar.spawn()
                  .expect("Failed to spawn backend sidecar");
              log::info!("Backend sidecar started");
          }
          Ok(())
      })
      .run(tauri::generate_context!())
      .expect("error while running tauri application");

We model a run of this procedure as a trace of observable events plus a
final outcome, parametrised by the build configuration (debug vs release)
and by an environment recording which of the fallible external operations
succeed (logger plugin attachment, sidecar command resolution, sidecar
spawn, the GUI run loop itself).  Rust `panic!` via `.expect` aborts the
process with a non-zero exit status; it is modelled by the `panicked`
outcome carrying the panic message.  Rust drop semantics matter for the
claims about handle retention: the bindings `_rx` and `_child` live in the
`#[cfg(not(debug_assertions))]` block and are dropped at its closing
brace, in reverse order of introduction, before `Ok(())` is returned; the
model emits explicit drop events there.
-/

namespace MediaOrganizer

/-- Build configuration: the compile-time `debug_assertions` distinction
used both by `cfg!(debug_assertions)` and `#[cfg(not(debug_assertions))]`. -/
inductive BuildConfig
  | debug
  | release
deriving DecidableEq, Fintype

/-- Log level filters of the `log` crate, as used by
`tauri_plugin_log::Builder::level`. -/
inductive LevelFilter
  | off
  | error
  | warn
  | info
  | debug
  | trace
deriving DecidableEq, Fintype

/-- Observable events of one application run, in program order. -/
inductive Event
  /-- `.plugin(tauri_plugin_shell::init())`: registration of the
  shell-execution capability plugin on the builder. -/
  | registerShellPlugin
  /-- `app.handle().plugin(tauri_plugin_log::Builder::default().level(l).build())`:
  the attach call for the logging plugin, configured at level `l`. -/
  | attachLogger (l : LevelFilter)
  /-- `app.shell().sidecar(name)`: resolution of the sidecar executable
  into a command. -/
  | createSidecarCmd (name : String)
  /-- `sidecar.spawn()`: the attempt to spawn the sidecar child process. -/
  | spawnSidecar
  /-- `log::info!(msg)`. -/
  | logInfo (msg : String)
  /-- Rust drop of the `_child` process handle (end of the sidecar block). -/
  | dropChildHandle
  /-- Rust drop of the `_rx` output-event receiver (end of the sidecar block). -/
  | dropReceiver
  /-- The GUI run loop of `Builder::run` is entered. -/
  | enterRunLoop
  /-- The GUI run loop signals shutdown and `Builder::run` returns `Ok`. -/
  | exitRunLoop
deriving DecidableEq

/-- Environment of one run: which fallible external operations succeed. -/
structure Env where
  /-- Whether `app.handle().plugin(tauri_plugin_log...)` returns `Ok`. -/
  loggerPluginOk : Bool
  /-- Whether `app.shell().sidecar("media-organizer-backend")` returns `Ok`. -/
  sidecarCmdOk : Bool
  /-- Whether `sidecar.spawn()` returns `Ok`. -/
  spawnOk : Bool
  /-- Whether the GUI run loop runs to a clean shutdown (`Builder::run`
  returns `Ok`). -/
  runLoopOk : Bool
deriving DecidableEq, Fintype

/-- Result of the setup closure: it can return `Ok(())`, return an error
(via the `?` operator on logger attachment), or never return because a
`.expect` panicked. -/
inductive SetupOutcome
  | ok
  | err
  | panicked (msg : String)
deriving DecidableEq

/-- Final outcome of the whole `run()` call: a normal return after the GUI
run loop exits, or a process abort via `panic!` (non-zero exit status)
carrying the panic message. -/
inductive Outcome
  | exited
  | panicked (msg : String)
deriving DecidableEq

/-- The setup closure passed to `.setup(...)`, from the source.  In a
debug build `cfg!(debug_assertions)` is true and the logger plugin is
attached (its failure propagates via `?`); the sidecar block is compiled
only when `not(debug_assertions)`.  In a release build the logger branch
is not taken and the sidecar block runs: command creation and spawn each
panic on failure via `.expect`, then `log::info!` fires and the block ends,
dropping `_child` and `_rx`. -/
def setup (cfg : BuildConfig) (env : Env) : List Event × SetupOutcome :=
  if cfg = BuildConfig.debug then
    if env.loggerPluginOk then
      ([Event.attachLogger LevelFilter.info], SetupOutcome.ok)
    else
      ([Event.attachLogger LevelFilter.info], SetupOutcome.err)
  else
    if env.sidecarCmdOk = false then
      ([Event.createSidecarCmd "media-organizer-backend"],
        SetupOutcome.panicked "Failed to create sidecar command")
    else if env.spawnOk = false then
      ([Event.createSidecarCmd "media-organizer-backend", Event.spawnSidecar],
        SetupOutcome.panicked "Failed to spawn backend sidecar")
    else
      ([Event.createSidecarCmd "media-organizer-backend", Event.spawnSidecar,
        Event.logInfo "Backend sidecar started",
        Event.dropChildHandle, Event.dropReceiver],
        SetupOutcome.ok)

/-- One application run of `pub fn run()`: the shell plugin is registered
on the builder, the setup closure runs during app building, and then
`Builder::run` enters the GUI run loop.  If setup returned `Err`,
`Builder::run` returns that error without entering the run loop and the
outer `.expect("error while running tauri application")` panics; if setup
panicked the process has already aborted; otherwise the run loop is
entered and blocks until the GUI signals shutdown, any internal runtime
failure again surfacing through the outer `.expect`. -/
def run (cfg : BuildConfig) (env : Env) : List Event × Outcome :=
  let s := setup cfg env
  let evs := Event.registerShellPlugin :: s.1
  match s.2 with
  | SetupOutcome.panicked m => (evs, Outcome.panicked m)
  | SetupOutcome.err =>
      (evs, Outcome.panicked "error while running tauri application")
  | SetupOutcome.ok =>
      if env.runLoopOk then
        (evs ++ [Event.enterRunLoop, Event.exitRunLoop], Outcome.exited)
      else
        (evs ++ [Event.enterRunLoop],
          Outcome.panicked "error while running tauri application")

/-- The event trace of a run. -/
def runEvents (cfg : BuildConfig) (env : Env) : List Event :=
  (run cfg env).1

/-- The final outcome of a run. -/
def runOutcome (cfg : BuildConfig) (env : Env) : Outcome :=
  (run cfg env).2

/-- Whether an event is the sidecar spawn attempt (`sidecar.spawn()`). -/
def isSpawnAttempt : Event → Bool
  | Event.spawnSidecar => true
  | _ => false

/-- Whether an event is a logging-plugin attach call. -/
def isLoggerAttach : Event → Bool
  | Event.attachLogger _ => true
  | _ => false

/-- Whether an event belongs to the sidecar-launching path (command
resolution or spawn). -/
def isSidecarStep : Event → Bool
  | Event.createSidecarCmd _ => true
  | Event.spawnSidecar => true
  | _ => false

/-- Number of sidecar spawn attempts in a trace. -/
def spawnAttempts (evs : List Event) : Nat :=
  (evs.filter isSpawnAttempt).length

/-- Number of logging-plugin attach calls in a trace. -/
def loggerAttaches (evs : List Event) : Nat :=
  (evs.filter isLoggerAttach).length

/-- Whether the GUI run loop was entered during a run. -/
def enteredRunLoop (evs : List Event) : Bool :=
  evs.contains Event.enterRunLoop

/-- Whether an outcome is a fatal process abort (panic, hence a non-zero
exit status) as opposed to a normal return. -/
def isFatal : Outcome → Bool
  | Outcome.panicked _ => true
  | Outcome.exited => false

/-- Whether some occurrence of `a` appears strictly before some
occurrence of `b` in the trace. -/
def before (a b : Event) : List Event → Bool
  | [] => false
  | e :: rest => (e == a && rest.contains b) || before a b rest

/-- Environment in which every external operation succeeds. -/
def envAllOk : Env :=
  { loggerPluginOk := true, sidecarCmdOk := true, spawnOk := true, runLoopOk := true }

/-- Environment in which sidecar command resolution fails
(`app.shell().sidecar(...)` returns `Err`). -/
def envNoCmd : Env :=
  { loggerPluginOk := true, sidecarCmdOk := false, spawnOk := true, runLoopOk := true }

/-- Environment in which the sidecar spawn fails
(`sidecar.spawn()` returns `Err`). -/
def envNoSpawn : Env :=
  { loggerPluginOk := true, sidecarCmdOk := true, spawnOk := false, runLoopOk := true }

/-- Environment in which logging-plugin attachment fails. -/
def envNoLogger : Env :=
  { loggerPluginOk := false, sidecarCmdOk := true, spawnOk := true, runLoopOk := true }

/-- Environment in which the GUI run loop itself fails. -/
def envBadRunLoop : Env :=
  { loggerPluginOk := true, sidecarCmdOk := true, spawnOk := true, runLoopOk := false }

/-! ## Claims -/

/-- C1, as stated ("exactly one sidecar spawn attempt is made in every
release run"), is false: when `app.shell().sidecar(...)` fails, the
process panics before `sidecar.spawn()` is ever called, so that run makes
zero spawn attempts. -/
theorem c1_counterexample :
    spawnAttempts (runEvents BuildConfig.release envNoCmd) = 0 ∧
      ¬ spawnAttempts (runEvents BuildConfig.release envNoCmd) = 1 := by
  decide

/-- C1 (amended): in every release run no logger plugin is ever attached
and at most one sidecar spawn attempt is made; exactly one spawn attempt
is made whenever sidecar command creation succeeds. -/
theorem c1_release_one_spawn_no_logger :
    ∀ env : Env,
      loggerAttaches (runEvents BuildConfig.release env) = 0 ∧
      spawnAttempts (runEvents BuildConfig.release env) ≤ 1 ∧
      (env.sidecarCmdOk = true →
        spawnAttempts (runEvents BuildConfig.release env) = 1) := by
  decide

/-- C1 witness: in the all-successful release run there is exactly one
spawn attempt and no logger attachment. -/
theorem c1_witness :
    loggerAttaches (runEvents BuildConfig.release envAllOk) = 0 ∧
      spawnAttempts (runEvents BuildConfig.release envAllOk) = 1 :=
  ⟨(c1_release_one_spawn_no_logger envAllOk).1,
    (c1_release_one_spawn_no_logger envAllOk).2.2 rfl⟩

/-- C2: in a release build, if the sidecar command cannot be resolved or
the spawn fails, the run ends in a fatal panic (non-zero outcome), the
GUI run loop is never entered, and no retry happens (at most one spawn
attempt). -/
theorem c2_release_spawn_failure_fatal :
    ∀ env : Env,
      env.sidecarCmdOk = false ∨ env.spawnOk = false →
        isFatal (runOutcome BuildConfig.release env) = true ∧
        enteredRunLoop (runEvents BuildConfig.release env) = false ∧
        spawnAttempts (runEvents BuildConfig.release env) ≤ 1 := by
  decide

/-- C2 witness: a failed spawn aborts the run before the GUI run loop. -/
theorem c2_witness :
    isFatal (runOutcome BuildConfig.release envNoSpawn) = true ∧
      enteredRunLoop (runEvents BuildConfig.release envNoSpawn) = false ∧
      spawnAttempts (runEvents BuildConfig.release envNoSpawn) ≤ 1 :=
  c2_release_spawn_failure_fatal envNoSpawn (Or.inr rfl)

/-- C3: in every debug run the logging-plugin attach call is performed
exactly once during setup, and no sidecar step (command creation or
spawn) ever occurs. -/
theorem c3_debug_logger_no_spawn :
    ∀ env : Env,
      loggerAttaches (runEvents BuildConfig.debug env) = 1 ∧
      spawnAttempts (runEvents BuildConfig.debug env) = 0 ∧
      ((runEvents BuildConfig.debug env).all
        fun e => !isSidecarStep e) = true := by
  decide

/-- C4, as stated (the child handle and output stream are retained by the
Application Shell until it terminates), is false: in the all-successful
release run both are dropped at the end of the sidecar block inside the
setup closure, strictly before the GUI run loop is even entered. -/
theorem c4_counterexample :
    before Event.dropChildHandle Event.enterRunLoop
        (runEvents BuildConfig.release envAllOk) = true ∧
      before Event.dropReceiver Event.enterRunLoop
        (runEvents BuildConfig.release envAllOk) = true := by
  decide

/-- C4 (amended): in a release build, after a successful spawn the child
handle and the output receiver are held only to the end of the sidecar
block in setup: both drop events occur, after the spawn and before the
run loop is entered, so the handles are not retained for the
application's lifetime. -/
theorem c4_handles_dropped_in_setup :
    ∀ env : Env,
      env.sidecarCmdOk = true → env.spawnOk = true →
        (runEvents BuildConfig.release env).contains Event.dropChildHandle = true ∧
        (runEvents BuildConfig.release env).contains Event.dropReceiver = true ∧
        before Event.spawnSidecar Event.dropChildHandle
          (runEvents BuildConfig.release env) = true ∧
        before Event.dropChildHandle Event.enterRunLoop
          (runEvents BuildConfig.release env) = true ∧
        before Event.dropReceiver Event.enterRunLoop
          (runEvents BuildConfig.release env) = true := by
  decide

/-- C4 witness: in the all-successful release run the drops happen after
the spawn and before the run loop. -/
theorem c4_witness :
    (runEvents BuildConfig.release envAllOk).contains Event.dropChildHandle = true ∧
      (runEvents BuildConfig.release envAllOk).contains Event.dropReceiver = true ∧
      before Event.spawnSidecar Event.dropChildHandle
        (runEvents BuildConfig.release envAllOk) = true ∧
      before Event.dropChildHandle Event.enterRunLoop
        (runEvents BuildConfig.release envAllOk) = true ∧
      before Event.dropReceiver Event.enterRunLoop
        (runEvents BuildConfig.release envAllOk) = true :=
  c4_handles_dropped_in_setup envAllOk rfl rfl

/-- C5: in a debug build, if logging-plugin attachment fails the setup
error is propagated to `Builder::run`, whose `.expect` aborts the process
fatally; no sidecar spawn is ever attempted and the GUI run loop is never
entered. -/
theorem c5_debug_logger_failure_aborts :
    ∀ env : Env,
      env.loggerPluginOk = false →
        runOutcome BuildConfig.debug env =
          Outcome.panicked "error while running tauri application" ∧
        isFatal (runOutcome BuildConfig.debug env) = true ∧
        spawnAttempts (runEvents BuildConfig.debug env) = 0 ∧
        enteredRunLoop (runEvents BuildConfig.debug env) = false := by
  decide

/-- C5 witness: a failed logger attachment in debug aborts before any
spawn and before the run loop. -/
theorem c5_witness :
    runOutcome BuildConfig.debug envNoLogger =
        Outcome.panicked "error while running tauri application" ∧
      isFatal (runOutcome BuildConfig.debug envNoLogger) = true ∧
      spawnAttempts (runEvents BuildConfig.debug envNoLogger) = 0 ∧
      enteredRunLoop (runEvents BuildConfig.debug envNoLogger) = false :=
  c5_debug_logger_failure_aborts envNoLogger rfl

/-- C6: `run()` returns normally only after the GUI run loop has been
entered and has signalled shutdown (the shutdown signal is the last
event); if the GUI runtime fails during the run loop, the process ends in
a fatal panic instead of returning normally. -/
theorem c6_run_blocks_until_shutdown :
    ∀ (cfg : BuildConfig) (env : Env),
      (runOutcome cfg env = Outcome.exited →
        enteredRunLoop (runEvents cfg env) = true ∧
        (runEvents cfg env).getLast? = some Event.exitRunLoop) ∧
      (enteredRunLoop (runEvents cfg env) = true → env.runLoopOk = false →
        isFatal (runOutcome cfg env) = true ∧
        runOutcome cfg env ≠ Outcome.exited) := by
  decide

/-- C6 witness: a release run whose GUI runtime fails ends fatally and
does not return normally. -/
theorem c6_witness :
    isFatal (runOutcome BuildConfig.release envBadRunLoop) = true ∧
      runOutcome BuildConfig.release envBadRunLoop ≠ Outcome.exited :=
  (c6_run_blocks_until_shutdown BuildConfig.release envBadRunLoop).2 (by decide) rfl

/-- C7: startup order is fixed in every run: shell-plugin registration is
the first event; the GUI run loop is entered exactly when every setup
step succeeded; when it is entered, every other event of the run precedes
it; and if sidecar command creation fails no spawn step is ever
reached. -/
theorem c7_startup_order :
    ∀ (cfg : BuildConfig) (env : Env),
      (runEvents cfg env).head? = some Event.registerShellPlugin ∧
      (enteredRunLoop (runEvents cfg env) = true ↔
        (setup cfg env).2 = SetupOutcome.ok) ∧
      (enteredRunLoop (runEvents cfg env) = true →
        ((runEvents cfg env).all fun e =>
          e == Event.enterRunLoop || e == Event.exitRunLoop ||
            before e Event.enterRunLoop (runEvents cfg env)) = true) ∧
      (cfg = BuildConfig.release → env.sidecarCmdOk = false →
        spawnAttempts (runEvents cfg env) = 0) := by
  decide

/-- C7 witness: in the all-successful release run the run loop is entered
and every other event of the run precedes it. -/
theorem c7_witness :
    ((runEvents BuildConfig.release envAllOk).all fun e =>
      e == Event.enterRunLoop || e == Event.exitRunLoop ||
        before e Event.enterRunLoop (runEvents BuildConfig.release envAllOk)) = true :=
  (c7_startup_order BuildConfig.release envAllOk).2.2.1 (by decide)

/-- C8: the shell-execution capability plugin is registered
unconditionally in every build configuration and every environment, as
the first event of the run, exactly once. -/
theorem c8_shell_plugin_registered_first :
    ∀ (cfg : BuildConfig) (env : Env),
      (runEvents cfg env).head? = some Event.registerShellPlugin ∧
      ((runEvents cfg env).filter
        fun e => e == Event.registerShellPlugin).length = 1 := by
  decide

/-- C9: in every debug run the one logging plugin that is attached is
configured at level filter Info. -/
theorem c9_logger_level_info :
    ∀ env : Env,
      (runEvents BuildConfig.debug env).filter isLoggerAttach =
        [Event.attachLogger LevelFilter.info] := by
  decide

/-- C10: in a release build the setup closure never returns an error
value: whenever it returns at all it returns Ok, and both release-path
failure points panic instead, with distinct messages. -/
theorem c10_release_setup_never_err :
    ∀ env : Env,
      (setup BuildConfig.release env).2 ≠ SetupOutcome.err ∧
      (env.sidecarCmdOk = false →
        (setup BuildConfig.release env).2 =
          SetupOutcome.panicked "Failed to create sidecar command") ∧
      (env.sidecarCmdOk = true → env.spawnOk = false →
        (setup BuildConfig.release env).2 =
          SetupOutcome.panicked "Failed to spawn backend sidecar") ∧
      (env.sidecarCmdOk = true → env.spawnOk = true →
        (setup BuildConfig.release env).2 = SetupOutcome.ok) ∧
      loggerAttaches (runEvents BuildConfig.release env) = 0 ∧
      SetupOutcome.panicked "Failed to create sidecar command" ≠
        SetupOutcome.panicked "Failed to spawn backend sidecar" := by
  decide

/-- C10 witness: when sidecar command creation fails in release, setup
panics with the command-creation message rather than returning an
error. -/
theorem c10_witness :
    (setup BuildConfig.release envNoCmd).2 =
      SetupOutcome.panicked "Failed to create sidecar command" :=
  (c10_release_setup_never_err envNoCmd).2.1 rfl

end MediaOrganizer
